import Mathlib

/-!
Shallow embedding of the identity/credential subsystem of the
travelDesk247 backend (`AuthService` in `src/src/agent/agent.controller.ts`,
together with the SQL schema in the migration file).

Modelling conventions:
- Time is a `Nat` of milliseconds since the epoch (`Date.now()`).
- The persistent store (`this.db`) is a `Db` record of row lists; Prisma
  calls become list operations.  Prisma `$transaction` rolls back all
  callback writes when the callback throws, which the embedding renders
  as returning the original `Db` on every error path of `register`.
- JavaScript objects that the code builds by spread (`{...userDetails}`)
  are modelled as association lists `Obj`, so that which keys get
  forwarded is preserved faithfully.
- External primitives (bcrypt, jsonwebtoken) are modelled by executable
  stand-ins that keep the properties the code relies on: bcrypt digests
  carry the algorithm prefix (so a digest is never its own input), and a
  JWT is a payload plus a secret-keyed signature with an embedded expiry.
- Fallible persistence steps take explicit failure flags (`FailSpec`),
  standing for the StorageError cases exercised by the error handling.
-/

namespace TravelDesk

/-- The OtpType enum of the schema (CreateEnum OtpType). -/
inductive OtpType where
  | EMAIL_VERIFICATION
  | PHONE_VERIFICATION
  | LOGIN
  | PASSWORD_RESET
deriving DecidableEq, Repr

/-- A row of the users table, restricted to the columns the auth flows
touch: id, unique email, password hash, isVerified flag. -/
structure UserRow where
  id : String
  email : String
  password : String
  isVerified : Bool
deriving DecidableEq, Repr

/-- A row of the otp_codes table. -/
structure OtpCode where
  id : Nat
  userId : String
  code : String
  type : OtpType
  expiresAt : Nat
  verified : Bool
deriving DecidableEq, Repr

/-- Model of a signed JWT: the payload `{ userId }`, the embedded `exp`
claim, and the signature bytes. -/
structure JwtToken where
  userId : String
  exp : Nat
  sig : String
deriving DecidableEq, Repr

/-- A row of the sessions table.  The schema declares `userId TEXT NOT
NULL`, but the code builds the insert data without a userId (the line is
commented out), so the row model makes the field optional and a separate
predicate checks the schema constraint. -/
structure SessionRow where
  userId : Option String
  token : JwtToken
  expiresAt : Nat
deriving DecidableEq, Repr

/-- A JavaScript object as built by literal/spread syntax: an association
list from key to string value. -/
abbrev Obj := List (String × String)

/-- Key lookup in an `Obj` (first match wins, as for JS property access
on our spread encoding). -/
def objLookup (o : Obj) (k : String) : Option String :=
  (o.find? (fun p => p.1 == k)).map (fun p => p.2)

/-- The `delete o[k]` operation on a JS object. -/
def objDelete (o : Obj) (k : String) : Obj :=
  o.filter (fun p => !(p.1 == k))

/-- The persistent state: the tables the auth flows read or write.
Role-profile rows (agents, corporate_users) are kept as raw objects
because the code creates them by spreading the registration payload. -/
structure Db where
  users : List UserRow
  agents : List Obj
  corporateUsers : List Obj
  otpCodes : List OtpCode
  sessions : List SessionRow
deriving DecidableEq, Repr

/-- The error kinds the service surfaces, per the taxonomy:
UnauthorizedException with message Invalid credentials / Invalid token is
invalidCredentials; UnauthorizedException with message Invalid or expired
token is invalidOrExpiredOtp; persistence failures are storageError. -/
inductive AuthError where
  | invalidCredentials
  | invalidOrExpiredOtp
  | storageError
deriving DecidableEq, Repr

/-- The hard-coded signing secret of the code. -/
def SECRET : String := "YOUR_SECRET_KEY"

/-- Model of `bcrypt.hash(p, 10)`: an executable stand-in keeping the
format property of bcrypt digests, namely that every digest starts with
the algorithm/cost prefix and so is never the plaintext itself. -/
def bcryptHash (p : String) : String :=
  "$2b$10$" ++ p

/-- Model of `bcrypt.compare(p, digest)`: succeeds exactly when digest
is the digest of p. -/
def bcryptCompare (p digest : String) : Bool :=
  digest == bcryptHash p

/-- The signature over a payload that signing with `secret` produces. -/
def jwtMac (secret userId : String) (exp : Nat) : String :=
  secret ++ "." ++ userId ++ "." ++ toString exp

/-- Model of `jwt.sign({ userId }, secret, { expiresIn })`: embeds the
expiry `now + ttlMs` and signs payload and expiry with the secret. -/
def jwtSign (secret userId : String) (now ttlMs : Nat) : JwtToken :=
  { userId := userId, exp := now + ttlMs,
    sig := jwtMac secret userId (now + ttlMs) }

/-- Model of `jwt.verify(token, secret)`: returns the decoded userId when
the signature matches and the embedded expiry has not passed, and none
(the throwing path) otherwise. -/
def jwtVerify (secret : String) (t : JwtToken) (now : Nat) : Option String :=
  if t.sig = jwtMac secret t.userId t.exp ∧ now < t.exp then some t.userId
  else none

/-- Failure flags for the fallible persistence steps of registration. -/
structure FailSpec where
  userCreateFails : Bool
  profileCreateFails : Bool
  otpCreateFails : Bool
  sessionCreateFails : Bool
deriving DecidableEq, Repr

/-- AuthService.generateToken: signs a 1-hour JWT for userId and persists
a Session row holding only the token and `expiresAt = now + 3600000`; the
insert data carries no userId (that line is commented out in the code). -/
def generateToken (db : Db) (userId : String) (now : Nat)
    (sessionCreateFails : Bool) : Except AuthError JwtToken × Db :=
  let token := jwtSign SECRET userId now 3600000
  if sessionCreateFails then (.error .storageError, db)
  else
    (.ok token,
      { db with sessions :=
          { userId := none, token := token, expiresAt := now + 3600000 }
            :: db.sessions })

/-- The sessions table declares userId TEXT NOT NULL (with a foreign key
to users), so a row satisfies the schema only when it records a userId. -/
def sessionRowSatisfiesSchema (s : SessionRow) : Bool :=
  s.userId.isSome

/-- Prisma `user.findUnique({ where: { email } })`. -/
def findUserByEmail (db : Db) (email : String) : Option UserRow :=
  db.users.find? (fun u => u.email == email)

/-- Prisma `user.findUnique({ where: { id } })`. -/
def findUserById (db : Db) (id : String) : Option UserRow :=
  db.users.find? (fun u => u.id == id)

/-- AuthService.login: look the user up by email; a missing user and a
failed bcrypt comparison both throw UnauthorizedException with the same
Invalid credentials message; on success delegate to generateToken. -/
def login (db : Db) (email password : String) (now : Nat)
    (sessionCreateFails : Bool) : Except AuthError JwtToken × Db :=
  match findUserByEmail db email with
  | none => (.error .invalidCredentials, db)
  | some u =>
    if bcryptCompare password u.password then
      generateToken db u.id now sessionCreateFails
    else (.error .invalidCredentials, db)

/-- AuthService.validateToken: try `jwt.verify` and return a boolean;
the catch arm turns every failure into false.  The body never touches
`this.db`, which the model renders by returning the state unchanged and
ignoring it in the result. -/
def validateToken (db : Db) (t : JwtToken) (now : Nat) : Bool × Db :=
  ((jwtVerify SECRET t now).isSome, db)

/-- AuthService.logout: delete the Session row matching the token; the
not-found error Prisma throws is caught and logged, so the call succeeds
either way. -/
def logout (db : Db) (t : JwtToken) : Except AuthError Unit × Db :=
  (.ok (),
    { db with sessions := db.sessions.filter (fun s => !(s.token == t)) })

/-- The registration payload, with the fields of the register DTO plus
the userType the service switches on. -/
structure RegisterDetails where
  username : String
  email : String
  password : String
  userType : String
deriving DecidableEq, Repr

/-- The registration payload as the JS object register receives. -/
def payloadObj (d : RegisterDetails) : Obj :=
  [("username", d.username), ("email", d.email),
   ("password", d.password), ("userType", d.userType)]

/-- The data object register passes to `agent.create` / `corporateUser.create`:
the whole payload spread after `delete userDetails.username`, plus the
`user: { connect: { id } }` relation binding, rendered as a userId key. -/
def profileCreateData (d : RegisterDetails) (newUserId : String) : Obj :=
  objDelete (payloadObj d) "username" ++ [("userId", newUserId)]

/-- AuthService.register: inside one Prisma `$transaction`, hash the
password, create the User (the spread payload with the password key
overridden by the digest), create an Agent or CorporateUser profile from
the spread payload when userType says so, create an EMAIL_VERIFICATION
OtpCode with a 15-minute expiry, and issue a token.  If any step throws,
the transaction rolls back and the original state is returned; the
random OTP draw and fresh ids are passed in as oracles. -/
def register (db : Db) (d : RegisterDetails) (newUserId : String)
    (otpId : Nat) (otpCode : String) (now : Nat) (fail : FailSpec) :
    Except AuthError JwtToken × Db :=
  let hashedPassword := bcryptHash d.password
  if fail.userCreateFails then (.error .storageError, db)
  else
    let newUser : UserRow :=
      { id := newUserId, email := d.email, password := hashedPassword,
        isVerified := false }
    let tx1 : Db := { db with users := newUser :: db.users }
    let profileStep : Except AuthError Db :=
      if d.userType == "AGENT" then
        if fail.profileCreateFails then .error .storageError
        else .ok { tx1 with
          agents := profileCreateData d newUserId :: tx1.agents }
      else if d.userType == "CORPORATE" then
        if fail.profileCreateFails then .error .storageError
        else .ok { tx1 with
          corporateUsers := profileCreateData d newUserId :: tx1.corporateUsers }
      else .ok tx1
    match profileStep with
    | .error e => (.error e, db)
    | .ok tx2 =>
      if fail.otpCreateFails then (.error .storageError, db)
      else
        let tx3 : Db := { tx2 with otpCodes :=
          { id := otpId, userId := newUserId, code := otpCode,
            type := .EMAIL_VERIFICATION, expiresAt := now + 900000,
            verified := false } :: tx2.otpCodes }
        match generateToken tx3 newUserId now fail.sessionCreateFails with
        | (.error e, _) => (.error e, db)
        | (.ok tok, txFinal) => (.ok tok, txFinal)

/-- AuthService.requestPasswordReset: if no User matches the email,
return silently (anti-enumeration); otherwise persist one PASSWORD_RESET
OtpCode with a 15-minute expiry.  The random code and fresh id are
oracles. -/
def requestPasswordReset (db : Db) (email : String) (otpCode : String)
    (otpId : Nat) (now : Nat) : Except AuthError Unit × Db :=
  match findUserByEmail db email with
  | none => (.ok (), db)
  | some u =>
    (.ok (),
      { db with otpCodes :=
          { id := otpId, userId := u.id, code := otpCode,
            type := .PASSWORD_RESET, expiresAt := now + 900000,
            verified := false } :: db.otpCodes })

/-- The Prisma where-object of the two OTP verification flows: exact code
and type, `expiresAt: { gt: now }`, `verified: false`. -/
def otpWhere (code : String) (ty : OtpType) (now : Nat) (o : OtpCode) : Bool :=
  o.code == code && o.type == ty && decide (o.expiresAt > now)
    && o.verified == false

/-- Prisma `otpCode.findFirst({ where: { code, type, expiresAt: { gt: now },
verified: false } })`. -/
def findValidOtp (db : Db) (code : String) (ty : OtpType) (now : Nat) :
    Option OtpCode :=
  db.otpCodes.find? (otpWhere code ty now)

/-- The `otpCode.update({ where: { id }, data: { verified: true } })` step. -/
def markOtpVerified (codes : List OtpCode) (id : Nat) : List OtpCode :=
  codes.map (fun o => if o.id = id then { o with verified := true } else o)

/-- AuthService.verifyPasswordReset: find an unexpired, unverified
PASSWORD_RESET row with the submitted code; if none, throw Invalid or
expired token; otherwise store the bcrypt digest of the new password on
the owning user and mark the OTP row verified. -/
def verifyPasswordReset (db : Db) (code newPassword : String) (now : Nat) :
    Except AuthError Unit × Db :=
  match findValidOtp db code .PASSWORD_RESET now with
  | none => (.error .invalidOrExpiredOtp, db)
  | some otp =>
    let db1 : Db := { db with users := db.users.map (fun u =>
      if u.id = otp.userId then { u with password := bcryptHash newPassword }
      else u) }
    (.ok (), { db1 with otpCodes := markOtpVerified db1.otpCodes otp.id })

/-- AuthService.verifyEmail: the same matching against EMAIL_VERIFICATION;
on success set the isVerified flag of the owning user and mark the OTP row
verified. -/
def verifyEmail (db : Db) (code : String) (now : Nat) :
    Except AuthError Unit × Db :=
  match findValidOtp db code .EMAIL_VERIFICATION now with
  | none => (.error .invalidOrExpiredOtp, db)
  | some otp =>
    let db1 : Db := { db with users := db.users.map (fun u =>
      if u.id = otp.userId then { u with isVerified := true } else u) }
    (.ok (), { db1 with otpCodes := markOtpVerified db1.otpCodes otp.id })

/-- The agent profile joined to a user by the include, located through
the userId relation key. -/
def findAgentProfile (db : Db) (userId : String) : Option Obj :=
  db.agents.find? (fun a => objLookup a "userId" == some userId)

/-- The corporate profile joined to a user by the include. -/
def findCorporateProfile (db : Db) (userId : String) : Option Obj :=
  db.corporateUsers.find? (fun a => objLookup a "userId" == some userId)

/-- The three shapes getUserInfo can return: a corporate profile, an
agent profile, or the base user row. -/
inductive UserInfo where
  | corporate (profile : Obj)
  | agent (profile : Obj)
  | base (u : UserRow)
deriving DecidableEq, Repr

/-- AuthService.getUserInfo: verify the token (any failure becomes
UnauthorizedException Invalid token); load the user with both profiles
included; return null when the user row is missing; otherwise the
switch(true) ladder returns the corporate profile first, then the agent
profile, then the base user. -/
def getUserInfo (db : Db) (t : JwtToken) (now : Nat) :
    Except AuthError (Option UserInfo) :=
  match jwtVerify SECRET t now with
  | none => .error .invalidCredentials
  | some uid =>
    match findUserById db uid with
    | none => .ok none
    | some u =>
      match findCorporateProfile db u.id with
      | some cp => .ok (some (.corporate cp))
      | none =>
        match findAgentProfile db u.id with
        | some ap => .ok (some (.agent ap))
        | none => .ok (some (.base u))

/-! Helper lemmas shared by the claim theorems. -/

/-- A row returned by findValidOtp is in the table and satisfies all four
conditions of the where-object. -/
theorem findValidOtp_spec {db : Db} {code : String} {ty : OtpType} {now : Nat}
    {o : OtpCode} (h : findValidOtp db code ty now = some o) :
    o ∈ db.otpCodes ∧ o.code = code ∧ o.type = ty ∧ now < o.expiresAt ∧
      o.verified = false := by
  rw [findValidOtp] at h
  have hmem := List.mem_of_find?_eq_some h
  have hp := List.find?_some h
  simp only [otpWhere, Bool.and_eq_true, beq_iff_eq, decide_eq_true_eq,
    gt_iff_lt] at hp
  exact ⟨hmem, hp.1.1.1, hp.1.1.2, hp.1.2, hp.2⟩

/-- After every row carrying the matched id is marked verified, no row
with the same code and kind passes the where-object at any later time,
provided every row qualifying at the earlier time carried the matched id. -/
theorem find_after_mark {codes : List OtpCode} {code : String} {ty : OtpType}
    {now now2 : Nat} {mid : Nat} (hmono : now ≤ now2)
    (huniq : ∀ o ∈ codes, otpWhere code ty now o = true → o.id = mid) :
    (markOtpVerified codes mid).find? (otpWhere code ty now2) = none := by
  rw [List.find?_eq_none]
  intro x hx hpx
  rw [markOtpVerified, List.mem_map] at hx
  obtain ⟨a, ha, hfa⟩ := hx
  by_cases hid : a.id = mid
  · rw [if_pos hid] at hfa
    subst hfa
    simp [otpWhere] at hpx
  · rw [if_neg hid] at hfa
    subst hfa
    apply hid
    apply huniq a ha
    simp only [otpWhere, Bool.and_eq_true, beq_iff_eq, decide_eq_true_eq,
      gt_iff_lt] at hpx ⊢
    exact ⟨⟨⟨hpx.1.1.1, hpx.1.1.2⟩, lt_of_le_of_lt hmono hpx.1.2⟩, hpx.2⟩

/-- The failing branch of verifyPasswordReset, given that no row matches. -/
theorem verifyPasswordReset_none {db : Db} {code np : String} {now : Nat}
    (hfind : findValidOtp db code .PASSWORD_RESET now = none) :
    verifyPasswordReset db code np now = (.error .invalidOrExpiredOtp, db) := by
  simp [verifyPasswordReset, hfind]

/-- The succeeding branch of verifyPasswordReset, given the matched row. -/
theorem verifyPasswordReset_some {db : Db} {code np : String} {now : Nat}
    {m : OtpCode} (hfind : findValidOtp db code .PASSWORD_RESET now = some m) :
    verifyPasswordReset db code np now =
      (.ok (), { db with
        users := db.users.map (fun u =>
          if u.id = m.userId then { u with password := bcryptHash np } else u),
        otpCodes := markOtpVerified db.otpCodes m.id }) := by
  simp [verifyPasswordReset, hfind]

/-- The failing branch of verifyEmail, given that no row matches. -/
theorem verifyEmail_none {db : Db} {code : String} {now : Nat}
    (hfind : findValidOtp db code .EMAIL_VERIFICATION now = none) :
    verifyEmail db code now = (.error .invalidOrExpiredOtp, db) := by
  simp [verifyEmail, hfind]

/-- The succeeding branch of verifyEmail, given the matched row. -/
theorem verifyEmail_some {db : Db} {code : String} {now : Nat}
    {m : OtpCode} (hfind : findValidOtp db code .EMAIL_VERIFICATION now = some m) :
    verifyEmail db code now =
      (.ok (), { db with
        users := db.users.map (fun u =>
          if u.id = m.userId then { u with isVerified := true } else u),
        otpCodes := markOtpVerified db.otpCodes m.id }) := by
  simp [verifyEmail, hfind]

/-- A bcrypt digest never equals its plaintext: the digest starts with
the algorithm/cost tag, so it is strictly longer. -/
theorem bcryptHash_ne (p : String) : bcryptHash p ≠ p := by
  intro h
  have hlen := congrArg String.length h
  rw [bcryptHash, String.length_append] at hlen
  have h7 : ("$2b$10$" : String).length = 7 := rfl
  rw [h7] at hlen
  omega

/-! Concrete fixtures used by witnesses and counterexamples. -/

/-- A FailSpec on which every persistence step succeeds. -/
def noFail : FailSpec :=
  { userCreateFails := false, profileCreateFails := false,
    otpCreateFails := false, sessionCreateFails := false }

/-- The empty store. -/
def dbEmpty : Db :=
  { users := [], agents := [], corporateUsers := [], otpCodes := [],
    sessions := [] }

/-- One registered standard user. -/
def userRow1 : UserRow :=
  { id := "u1", email := "a@x.com", password := bcryptHash "secret123",
    isVerified := false }

/-- A store holding only userRow1. -/
def dbOneUser : Db :=
  { users := [userRow1], agents := [], corporateUsers := [], otpCodes := [],
    sessions := [] }

/-- A store holding two distinct unverified PASSWORD_RESET rows that share
one code string, as two random draws can produce. -/
def dbDupOtp : Db :=
  { users := [], agents := [], corporateUsers := [],
    otpCodes :=
      [{ id := 0, userId := "u1", code := "123456", type := .PASSWORD_RESET,
         expiresAt := 1000, verified := false },
       { id := 1, userId := "u2", code := "123456", type := .PASSWORD_RESET,
         expiresAt := 1000, verified := false }],
    sessions := [] }

/-- A store holding one unverified PASSWORD_RESET row. -/
def dbOneOtp : Db :=
  { users := [userRow1], agents := [], corporateUsers := [],
    otpCodes :=
      [{ id := 0, userId := "u1", code := "111111", type := .PASSWORD_RESET,
         expiresAt := 1000, verified := false }],
    sessions := [] }

/-- A standard-role registration payload. -/
def dStd : RegisterDetails :=
  { username := "bob", email := "a@x.com", password := "secret123",
    userType := "STANDARD" }

/-- An agent-role registration payload. -/
def dAgent : RegisterDetails :=
  { username := "bob", email := "a@x.com", password := "secret123",
    userType := "AGENT" }

/-- A token issued for userRow1 at time 0. -/
def tok1 : JwtToken := jwtSign SECRET "u1" 0 3600000

/-- A token with a signature that does not verify. -/
def tokBad : JwtToken := { userId := "u1", exp := 3600000, sig := "bad" }

/-- An agent profile row bound to userRow1. -/
def agentObj1 : Obj := [("agentCode", "AG1"), ("userId", "u1")]

/-- A corporate profile row bound to userRow1. -/
def corpObj1 : Obj := [("companyId", "c1"), ("userId", "u1")]

/-- A store where userRow1 carries both profile rows. -/
def dbBothProfiles : Db :=
  { users := [userRow1], agents := [agentObj1], corporateUsers := [corpObj1],
    otpCodes := [], sessions := [] }

/-! Claim theorems. -/

/-- C1 (amended): a row already verified or past its expiry is never the
matched row of either verification flow; a successful verification marks
the matched row verified; and provided every row qualifying for the
submitted code and kind carries the matched row id, a later call with the
same code and kind fails with InvalidOrExpiredOtp.  (Without that proviso
the claim fails: two rows may share a code string, see the
counterexample.) -/
theorem C1_otp_single_use (db : Db) (code np np2 : String)
    (now now2 : Nat) (m : OtpCode) (hmono : now ≤ now2) :
    (findValidOtp db code .PASSWORD_RESET now = some m →
     (∀ o ∈ db.otpCodes, otpWhere code .PASSWORD_RESET now o = true →
        o.id = m.id) →
     m.verified = false ∧ now < m.expiresAt ∧
     (verifyPasswordReset db code np now).1 = .ok () ∧
     (verifyPasswordReset (verifyPasswordReset db code np now).2
        code np2 now2).1 = .error .invalidOrExpiredOtp) ∧
    (findValidOtp db code .EMAIL_VERIFICATION now = some m →
     (∀ o ∈ db.otpCodes, otpWhere code .EMAIL_VERIFICATION now o = true →
        o.id = m.id) →
     m.verified = false ∧ now < m.expiresAt ∧
     (verifyEmail db code now).1 = .ok () ∧
     (verifyEmail (verifyEmail db code now).2 code now2).1
        = .error .invalidOrExpiredOtp) ∧
    (∀ (ty : OtpType) (o : OtpCode), findValidOtp db code ty now = some o →
       o.verified = false ∧ now < o.expiresAt) := by
  refine ⟨?_, ?_, ?_⟩
  · intro hfind huniq
    obtain ⟨hmem, hcode, hty, hfresh, hunv⟩ := findValidOtp_spec hfind
    refine ⟨hunv, hfresh, ?_, ?_⟩
    · rw [verifyPasswordReset_some hfind]
    · have hstate : (verifyPasswordReset db code np now).2.otpCodes
          = markOtpVerified db.otpCodes m.id := by
        rw [verifyPasswordReset_some hfind]
      have hf2 : findValidOtp (verifyPasswordReset db code np now).2
          code .PASSWORD_RESET now2 = none := by
        rw [findValidOtp, hstate]
        exact find_after_mark hmono huniq
      rw [verifyPasswordReset_none hf2]
  · intro hfind huniq
    obtain ⟨hmem, hcode, hty, hfresh, hunv⟩ := findValidOtp_spec hfind
    refine ⟨hunv, hfresh, ?_, ?_⟩
    · rw [verifyEmail_some hfind]
    · have hstate : (verifyEmail db code now).2.otpCodes
          = markOtpVerified db.otpCodes m.id := by
        rw [verifyEmail_some hfind]
      have hf2 : findValidOtp (verifyEmail db code now).2
          code .EMAIL_VERIFICATION now2 = none := by
        rw [findValidOtp, hstate]
        exact find_after_mark hmono huniq
      rw [verifyEmail_none hf2]
  · intro ty o hfind
    obtain ⟨hmem, hcode, hty, hfresh, hunv⟩ := findValidOtp_spec hfind
    exact ⟨hunv, hfresh⟩

/-- C1 counterexample: with two unverified, unexpired PASSWORD_RESET rows
sharing one code string, a second call with the same code after a
successful first call succeeds again instead of failing with
InvalidOrExpiredOtp. -/
theorem C1_counterexample :
    (verifyPasswordReset dbDupOtp "123456" "np" 0).1 = .ok () ∧
    (verifyPasswordReset (verifyPasswordReset dbDupOtp "123456" "np" 0).2
        "123456" "np2" 5).1 ≠ .error .invalidOrExpiredOtp := by
  refine ⟨rfl, ?_⟩
  intro h
  rw [show (verifyPasswordReset (verifyPasswordReset dbDupOtp "123456" "np" 0).2
      "123456" "np2" 5).1 = Except.ok () from rfl] at h
  exact Except.noConfusion h

/-- C1 witness: with a single PASSWORD_RESET row the first verification
succeeds and the repeat call fails. -/
theorem C1_witness :
    (verifyPasswordReset dbOneOtp "111111" "np" 0).1 = .ok () ∧
    (verifyPasswordReset (verifyPasswordReset dbOneOtp "111111" "np" 0).2
        "111111" "np2" 5).1 = .error .invalidOrExpiredOtp := by
  have h := (C1_otp_single_use dbOneOtp "111111" "np" "np2" 0 5
      { id := 0, userId := "u1", code := "111111", type := .PASSWORD_RESET,
        expiresAt := 1000, verified := false }
      (by decide)).1 (by rfl) (by decide)
  exact ⟨h.2.2.1, h.2.2.2⟩

/-- C2: registration is atomic.  Whenever register returns an error, for
any combination of failing steps (user creation, role-profile creation,
OTP creation, or the token issuance inside the transaction callback), the
resulting persistent state equals the state before the call: the Prisma
transaction rolls the User, profile, and OtpCode writes back together,
and no session row survives either. -/
theorem C2_register_atomic (db : Db) (d : RegisterDetails)
    (newUserId : String) (otpId : Nat) (otpCode : String) (now : Nat)
    (fail : FailSpec) (e : AuthError)
    (h : (register db d newUserId otpId otpCode now fail).1 = .error e) :
    (register db d newUserId otpId otpCode now fail).2 = db := by
  obtain ⟨fu, fp, fo, fs⟩ := fail
  cases fu <;> cases fp <;> cases fo <;> cases fs <;>
    cases hA : (d.userType == "AGENT") <;>
      cases hC : (d.userType == "CORPORATE") <;>
        simp_all [register, generateToken]

/-- C2 witness: a failing OTP-creation step leaves the empty store
unchanged. -/
theorem C2_register_atomic_witness :
    (register dbEmpty dStd "u9" 7 "654321" 0
      { userCreateFails := false, profileCreateFails := false,
        otpCreateFails := true, sessionCreateFails := false }).2 = dbEmpty :=
  C2_register_atomic dbEmpty dStd "u9" 7 "654321" 0
    { userCreateFails := false, profileCreateFails := false,
      otpCreateFails := true, sessionCreateFails := false }
    .storageError (by rfl)

/-- C3: login fails with the same InvalidCredentials error kind, leaving
the state unchanged, both when no user row carries the email and when the
bcrypt comparison rejects the password; with a matching user and a
verifying password it returns the freshly signed one-hour token. -/
theorem C3_login_no_enumeration (db : Db) (email pw : String) (now : Nat) :
    (findUserByEmail db email = none →
      login db email pw now false = (.error .invalidCredentials, db)) ∧
    (∀ u, findUserByEmail db email = some u →
      bcryptCompare pw u.password = false →
      login db email pw now false = (.error .invalidCredentials, db)) ∧
    (∀ u, findUserByEmail db email = some u →
      bcryptCompare pw u.password = true →
      (login db email pw now false).1
        = .ok (jwtSign SECRET u.id now 3600000)) := by
  refine ⟨?_, ?_, ?_⟩
  · intro hfind
    simp [login, hfind]
  · intro u hfind hcmp
    simp [login, hfind, hcmp]
  · intro u hfind hcmp
    simp [login, hfind, hcmp, generateToken]

/-- C3 witness: an unknown email and a wrong password produce the same
error on concrete stores, and the correct password yields the token. -/
theorem C3_login_no_enumeration_witness :
    login dbEmpty "a@x.com" "secret123" 0 false
      = (.error .invalidCredentials, dbEmpty) ∧
    login dbOneUser "a@x.com" "wrong" 0 false
      = (.error .invalidCredentials, dbOneUser) ∧
    (login dbOneUser "a@x.com" "secret123" 0 false).1
      = .ok (jwtSign SECRET "u1" 0 3600000) :=
  ⟨(C3_login_no_enumeration dbEmpty "a@x.com" "secret123" 0).1 (by rfl),
   (C3_login_no_enumeration dbOneUser "a@x.com" "wrong" 0).2.1 userRow1
     (by rfl) (by decide),
   (C3_login_no_enumeration dbOneUser "a@x.com" "secret123" 0).2.2 userRow1
     (by rfl) (by decide)⟩

/-- C4: requesting a password reset for an email with no matching user
returns success and leaves the state unchanged; for a matching user it
prepends exactly one PASSWORD_RESET OtpCode row with a 15-minute expiry
and returns success. -/
theorem C4_request_password_reset (db : Db) (email otpCode : String)
    (otpId now : Nat) :
    (findUserByEmail db email = none →
      requestPasswordReset db email otpCode otpId now = (.ok (), db)) ∧
    (∀ u, findUserByEmail db email = some u →
      requestPasswordReset db email otpCode otpId now =
        (.ok (), { db with otpCodes :=
          { id := otpId, userId := u.id, code := otpCode,
            type := .PASSWORD_RESET, expiresAt := now + 900000,
            verified := false } :: db.otpCodes })) := by
  refine ⟨?_, ?_⟩
  · intro hfind
    simp [requestPasswordReset, hfind]
  · intro u hfind
    simp [requestPasswordReset, hfind]

/-- C4 witness: the unknown-email case on the empty store and the
known-email case on a one-user store. -/
theorem C4_request_password_reset_witness :
    requestPasswordReset dbEmpty "a@x.com" "222222" 9 0 = (.ok (), dbEmpty) ∧
    requestPasswordReset dbOneUser "a@x.com" "222222" 9 0 =
      (.ok (), { dbOneUser with otpCodes :=
        [{ id := 9, userId := "u1", code := "222222",
           type := .PASSWORD_RESET, expiresAt := 900000,
           verified := false }] }) :=
  ⟨(C4_request_password_reset dbEmpty "a@x.com" "222222" 9 0).1 (by rfl),
   (C4_request_password_reset dbOneUser "a@x.com" "222222" 9 0).2 userRow1
     (by rfl)⟩

/-- C5: every successful registration stores the bcrypt digest of the
submitted plaintext on the created user row, and that digest is never the
plaintext itself. -/
theorem C5_register_password_hashed (db : Db) (d : RegisterDetails)
    (newUserId : String) (otpId : Nat) (otpCode : String) (now : Nat)
    (fail : FailSpec) (tok : JwtToken)
    (h : (register db d newUserId otpId otpCode now fail).1 = .ok tok) :
    (register db d newUserId otpId otpCode now fail).2.users.head?
      = some { id := newUserId, email := d.email,
               password := bcryptHash d.password, isVerified := false } ∧
    bcryptHash d.password ≠ d.password := by
  refine ⟨?_, bcryptHash_ne d.password⟩
  obtain ⟨fu, fp, fo, fs⟩ := fail
  cases fu <;> cases fp <;> cases fo <;> cases fs <;>
    cases hA : (d.userType == "AGENT") <;>
      cases hC : (d.userType == "CORPORATE") <;>
        simp_all [register, generateToken]

/-- C5 witness: a concrete successful registration stores the digest of
secret123, which differs from secret123. -/
theorem C5_register_password_hashed_witness :
    (register dbEmpty dStd "u9" 7 "654321" 0 noFail).2.users.head?
      = some { id := "u9", email := "a@x.com",
               password := bcryptHash "secret123", isVerified := false } ∧
    bcryptHash "secret123" ≠ "secret123" :=
  C5_register_password_hashed dbEmpty dStd "u9" 7 "654321" 0 noFail
    (jwtSign SECRET "u9" 0 3600000) (by rfl)

/-- C6: validateToken is total (it returns a boolean for every input,
the catch arm absorbing every verification failure), writes nothing,
gives the same answer over any two stores (it never reads the Session
table or any persistent state), and answers true exactly when the
signature verifies and the embedded expiry has not passed. -/
theorem C6_validate_token_total (db db2 : Db) (t : JwtToken) (now : Nat) :
    (validateToken db t now).2 = db ∧
    (validateToken db t now).1 = (validateToken db2 t now).1 ∧
    ((validateToken db t now).1 = true ↔
      (t.sig = jwtMac SECRET t.userId t.exp ∧ now < t.exp)) := by
  refine ⟨rfl, rfl, ?_⟩
  by_cases hP : t.sig = jwtMac SECRET t.userId t.exp ∧ now < t.exp
  · simp [validateToken, jwtVerify, hP]
  · simp [validateToken, jwtVerify, hP]

/-- C7: for a token whose signature verifies and whose embedded expiry
has not passed, logout succeeds and removes every Session row carrying
the token, yet validateToken still accepts the token afterwards, at the
current time and at every time before the embedded expiry. -/
theorem C7_logout_keeps_token_valid (db : Db) (t : JwtToken) (now : Nat)
    (hsig : t.sig = jwtMac SECRET t.userId t.exp) (hexp : now < t.exp) :
    (logout db t).1 = .ok () ∧
    (∀ s ∈ (logout db t).2.sessions, s.token ≠ t) ∧
    (validateToken (logout db t).2 t now).1 = true ∧
    (∀ m, m < t.exp → (validateToken (logout db t).2 t m).1 = true) := by
  refine ⟨rfl, ?_, ?_, ?_⟩
  · intro s hs
    rw [logout] at hs
    simp only [List.mem_filter, Bool.not_eq_eq_eq_not, Bool.not_true,
      beq_eq_false_iff_ne, ne_eq] at hs
    exact hs.2
  · simp [validateToken, jwtVerify, hsig, hexp]
  · intro m hm
    simp [validateToken, jwtVerify, hsig, hm]

/-- C7 witness: a concretely signed unexpired token still validates after
logging it out of a store that held its session row. -/
theorem C7_logout_keeps_token_valid_witness :
    (logout { dbOneUser with sessions :=
        [{ userId := none, token := tok1, expiresAt := 3600000 }] } tok1).1
      = .ok () ∧
    (validateToken (logout { dbOneUser with sessions :=
        [{ userId := none, token := tok1, expiresAt := 3600000 }] } tok1).2
      tok1 5).1 = true :=
  ⟨(C7_logout_keeps_token_valid { dbOneUser with sessions :=
      [{ userId := none, token := tok1, expiresAt := 3600000 }] } tok1 5
      (by rfl) (by decide)).1,
   (C7_logout_keeps_token_valid { dbOneUser with sessions :=
      [{ userId := none, token := tok1, expiresAt := 3600000 }] } tok1 5
      (by rfl) (by decide)).2.2.1⟩

/-- C8: getUserInfo fails with the InvalidCredentials kind when the token
does not decode; returns none when the decoded userId has no user row;
and otherwise returns, in fixed precedence, the corporate profile when
present, else the agent profile when present, else the base user row. -/
theorem C8_get_user_info_precedence (db : Db) (t : JwtToken) (now : Nat) :
    (jwtVerify SECRET t now = none →
      getUserInfo db t now = .error .invalidCredentials) ∧
    (∀ uid, jwtVerify SECRET t now = some uid → findUserById db uid = none →
      getUserInfo db t now = .ok none) ∧
    (∀ uid u cp, jwtVerify SECRET t now = some uid →
      findUserById db uid = some u →
      findCorporateProfile db u.id = some cp →
      getUserInfo db t now = .ok (some (.corporate cp))) ∧
    (∀ uid u ap, jwtVerify SECRET t now = some uid →
      findUserById db uid = some u →
      findCorporateProfile db u.id = none →
      findAgentProfile db u.id = some ap →
      getUserInfo db t now = .ok (some (.agent ap))) ∧
    (∀ uid u, jwtVerify SECRET t now = some uid →
      findUserById db uid = some u →
      findCorporateProfile db u.id = none →
      findAgentProfile db u.id = none →
      getUserInfo db t now = .ok (some (.base u))) := by
  refine ⟨?_, ?_, ?_, ?_, ?_⟩
  · intro hdec
    simp [getUserInfo, hdec]
  · intro uid hdec huser
    simp [getUserInfo, hdec, huser]
  · intro uid u cp hdec huser hcorp
    simp [getUserInfo, hdec, huser, hcorp]
  · intro uid u ap hdec huser hcorp hagent
    simp [getUserInfo, hdec, huser, hcorp, hagent]
  · intro uid u hdec huser hcorp hagent
    simp [getUserInfo, hdec, huser, hcorp, hagent]

/-- C8 witness: on a store where the user carries both profile rows the
corporate profile wins, and a badly signed token yields the
InvalidCredentials kind. -/
theorem C8_get_user_info_precedence_witness :
    getUserInfo dbBothProfiles tok1 5 = .ok (some (.corporate corpObj1)) ∧
    getUserInfo dbBothProfiles tokBad 5 = .error .invalidCredentials :=
  ⟨(C8_get_user_info_precedence dbBothProfiles tok1 5).2.2.1 "u1" userRow1
      corpObj1 (by rfl) (by rfl) (by rfl),
   (C8_get_user_info_precedence dbBothProfiles tokBad 5).1 (by rfl)⟩

/-- C9 (amended): for an agent or corporate registration the role-profile
row is created from the entire remaining registration payload, spread
after the username key is deleted, plus the binding to the new user; in
particular the plaintext password key is forwarded into the profile row
rather than any role-relevant subset being selected. -/
theorem C9_profile_payload_forwarded (db : Db) (d : RegisterDetails)
    (newUserId : String) (otpId : Nat) (otpCode : String) (now : Nat) :
    (d.userType = "AGENT" →
      (register db d newUserId otpId otpCode now noFail).2.agents.head?
        = some (profileCreateData d newUserId)) ∧
    (d.userType = "CORPORATE" →
      (register db d newUserId otpId otpCode now noFail).2.corporateUsers.head?
        = some (profileCreateData d newUserId)) ∧
    objLookup (profileCreateData d newUserId) "password" = some d.password ∧
    objLookup (profileCreateData d newUserId) "username" = none := by
  refine ⟨?_, ?_, rfl, rfl⟩
  · intro hA
    simp [register, generateToken, noFail, hA]
  · intro hC
    have hA : (d.userType == "AGENT") = false := by
      simp [hC]
    simp [register, generateToken, noFail, hA, hC]

/-- C9 counterexample: a concrete agent registration succeeds and the
created agent profile row carries the password key bound to the submitted
plaintext, refuting that only a role-relevant subset is forwarded. -/
theorem C9_counterexample :
    (register dbEmpty dAgent "u9" 7 "654321" 0 noFail).1
      = .ok (jwtSign SECRET "u9" 0 3600000) ∧
    ((register dbEmpty dAgent "u9" 7 "654321" 0 noFail).2.agents.head?.map
      (fun a => objLookup a "password")) = some (some "secret123") := by
  exact ⟨rfl, rfl⟩

/-- C9 witness: the amended statement at the concrete agent payload. -/
theorem C9_profile_payload_forwarded_witness :
    (register dbEmpty dAgent "u9" 7 "654321" 0 noFail).2.agents.head?
      = some (profileCreateData dAgent "u9") ∧
    objLookup (profileCreateData dAgent "u9") "password" = some "secret123" :=
  ⟨(C9_profile_payload_forwarded dbEmpty dAgent "u9" 7 "654321" 0).1 (by rfl),
   (C9_profile_payload_forwarded dbEmpty dAgent "u9" 7 "654321" 0).2.2.1⟩

/-- C10: the session row persisted at token issuance holds only the token
value and an expiry of now plus one hour; its userId field is absent,
even though the sessions table declares userId TEXT NOT NULL with a
foreign key to users, so the row can never satisfy the schema
constraint. -/
theorem C10_session_row_lacks_user (db : Db) (userId : String) (now : Nat) :
    (generateToken db userId now false).1
      = .ok (jwtSign SECRET userId now 3600000) ∧
    (generateToken db userId now false).2.sessions
      = { userId := none, token := jwtSign SECRET userId now 3600000,
          expiresAt := now + 3600000 } :: db.sessions ∧
    sessionRowSatisfiesSchema
      { userId := none, token := jwtSign SECRET userId now 3600000,
        expiresAt := now + 3600000 } = false :=
  ⟨rfl, rfl, rfl⟩

end TravelDesk
